import Mathlib

/-!
Shallow embedding of the vitalae.web.frontend client-side health-risk
computation (src/App.tsx, ProfilePage), the dashboard risk-level mapping
(src/pages/DashboardPage.tsx), and the login flow (src/contexts/AuthContext.tsx).

JavaScript `number` values are modelled as rationals (ℚ); the risk score,
being a sum of non-negative integer contributions, is modelled as ℕ.
`Number(x.toFixed(1))` is modelled as rounding to the nearest tenth.
-/

namespace Vitalae

/-- smokingStatus enum: 'never' | 'former' | 'current'. -/
inductive SmokingStatus
  | never
  | former
  | current
deriving DecidableEq, Repr

/-- alcoholConsumption enum: 'none' | 'moderate' | 'heavy'. -/
inductive AlcoholConsumption
  | none
  | moderate
  | heavy
deriving DecidableEq, Repr

/-- activityLevel enum: 'sedentary' | 'moderate' | 'active'. -/
inductive ActivityLevel
  | sedentary
  | moderate
  | active
deriving DecidableEq, Repr

/-- familyHistory sub-record of ProfileData. -/
structure FamilyHistory where
  heartDisease : Bool
  diabetes : Bool
  hypertension : Bool
deriving DecidableEq, Repr

/-- predictedRisk values: 'low' | 'medium' | 'high'. -/
inductive RiskCat
  | low
  | medium
  | high
deriving DecidableEq, Repr

/-- The ProfileData React state of ProfilePage (App.tsx), including the
derived fields bmi, healthRiskScore and predictedRisk that are stored in
the same state record. -/
structure ProfileData where
  height : ℚ
  weight : ℚ
  age : ℕ
  bmi : ℚ
  smokingStatus : SmokingStatus
  alcoholConsumption : AlcoholConsumption
  activityLevel : ActivityLevel
  hasHypertension : Bool
  hasDiabetes : Bool
  hasHighBP : Bool
  familyHistory : FamilyHistory
  healthRiskScore : ℕ
  predictedRisk : RiskCat
deriving DecidableEq, Repr

/-- Initial ProfilePage state (App.tsx lines 993-1011), with the default
age 30 used when no user age is available. -/
def initialProfileData : ProfileData where
  height := 170
  weight := 70
  age := 30
  bmi := 24.2
  smokingStatus := .never
  alcoholConsumption := .none
  activityLevel := .moderate
  hasHypertension := false
  hasDiabetes := false
  hasHighBP := false
  familyHistory := { heartDisease := false, diabetes := false, hypertension := false }
  healthRiskScore := 25
  predictedRisk := .low

/-- BMI computation of the ProfilePage useEffect (App.tsx lines 1014-1018):
heightInMeters = height / 100; bmi = Number((weight / (m*m)).toFixed(1)). -/
def computeBmi (height weight : ℚ) : ℚ :=
  let heightInMeters := height / 100
  ((round (weight / (heightInMeters * heightInMeters) * 10) : ℤ) : ℚ) / 10

/-- Age contribution of handleSubmit (App.tsx lines 1060-1062). -/
def agePoints (age : ℕ) : ℕ :=
  if age > 65 then 20
  else if age > 45 then 15
  else if age > 35 then 10
  else 0

/-- BMI contribution of handleSubmit (App.tsx lines 1064-1066). -/
def bmiPoints (bmi : ℚ) : ℕ :=
  if bmi ≥ 30 then 25
  else if bmi ≥ 25 then 15
  else if bmi < 18.5 then 10
  else 0

/-- Smoking contribution of handleSubmit (App.tsx lines 1068-1069). -/
def smokingPoints : SmokingStatus → ℕ
  | .current => 20
  | .former => 10
  | .never => 0

/-- Alcohol contribution of handleSubmit (App.tsx lines 1071-1072). -/
def alcoholPoints : AlcoholConsumption → ℕ
  | .heavy => 15
  | .moderate => 5
  | .none => 0

/-- Activity contribution of handleSubmit (App.tsx lines 1074-1075). -/
def activityPoints : ActivityLevel → ℕ
  | .sedentary => 15
  | .moderate => 5
  | .active => 0

/-- The raw (unclamped) risk score accumulated by handleSubmit
(App.tsx lines 1059-1083).  Note the family heartDisease contribution in
the source is 10 (line 1081). -/
def rawRiskScore (p : ProfileData) : ℕ :=
  agePoints p.age
  + bmiPoints p.bmi
  + smokingPoints p.smokingStatus
  + alcoholPoints p.alcoholConsumption
  + activityPoints p.activityLevel
  + (if p.hasHypertension then 20 else 0)
  + (if p.hasDiabetes then 25 else 0)
  + (if p.hasHighBP then 15 else 0)
  + (if p.familyHistory.heartDisease then 10 else 0)
  + (if p.familyHistory.diabetes then 10 else 0)
  + (if p.familyHistory.hypertension then 8 else 0)

/-- predictedRisk from the raw score (App.tsx line 1085):
riskScore < 30 ? 'low' : riskScore < 60 ? 'medium' : 'high'. -/
def predictedRiskOf (score : ℕ) : RiskCat :=
  if score < 30 then .low
  else if score < 60 then .medium
  else .high

/-- The state update performed by handleSubmit (App.tsx lines 1085-1091):
healthRiskScore := Math.min(riskScore, 100), predictedRisk from the raw score. -/
def submitStep (p : ProfileData) : ProfileData :=
  let riskScore := rawRiskScore p
  { p with
      healthRiskScore := min riskScore 100
      predictedRisk := predictedRiskOf riskScore }

/-- The useEffect that recomputes bmi from height and weight
(App.tsx lines 1014-1018). -/
def bmiEffect (p : ProfileData) : ProfileData :=
  { p with bmi := computeBmi p.height p.weight }

/-- A single-field update as performed by handleInputChange /
handleFamilyHistoryChange (App.tsx lines 1033-1048). -/
inductive FieldChange
  | setHeight (v : ℚ)
  | setWeight (v : ℚ)
  | setAge (v : ℕ)
  | setSmoking (v : SmokingStatus)
  | setAlcohol (v : AlcoholConsumption)
  | setActivity (v : ActivityLevel)
  | setHypertension (v : Bool)
  | setDiabetes (v : Bool)
  | setHighBP (v : Bool)
  | setFamilyHeartDisease (v : Bool)
  | setFamilyDiabetes (v : Bool)
  | setFamilyHypertension (v : Bool)
deriving DecidableEq, Repr

/-- Apply a single field change to the state (spreads the previous state,
overwriting one field). -/
def applyField (p : ProfileData) : FieldChange → ProfileData
  | .setHeight v => { p with height := v }
  | .setWeight v => { p with weight := v }
  | .setAge v => { p with age := v }
  | .setSmoking v => { p with smokingStatus := v }
  | .setAlcohol v => { p with alcoholConsumption := v }
  | .setActivity v => { p with activityLevel := v }
  | .setHypertension v => { p with hasHypertension := v }
  | .setDiabetes v => { p with hasDiabetes := v }
  | .setHighBP v => { p with hasHighBP := v }
  | .setFamilyHeartDisease v => { p with familyHistory := { p.familyHistory with heartDisease := v } }
  | .setFamilyDiabetes v => { p with familyHistory := { p.familyHistory with diabetes := v } }
  | .setFamilyHypertension v => { p with familyHistory := { p.familyHistory with hypertension := v } }

/-- One event of the ProfilePage: a field-change event, the bmi effect
firing, or a form submission completing. -/
inductive Step
  | field (c : FieldChange)
  | effectBmi
  | submit
deriving DecidableEq, Repr

/-- Apply one event to the ProfilePage state. -/
def applyStep (p : ProfileData) : Step → ProfileData
  | .field c => applyField p c
  | .effectBmi => bmiEffect p
  | .submit => submitStep p

/-- Run a sequence of events from the initial ProfilePage state. -/
def run (steps : List Step) : ProfileData :=
  steps.foldl applyStep initialProfileData

/-- The DerivedMetrics record of the specification: bmi, riskScore,
riskCategory. -/
structure DerivedMetrics where
  bmi : ℚ
  riskScore : ℕ
  riskCategory : RiskCat
deriving DecidableEq, Repr

/-- The full derivation pipeline realised by the code: the bmi effect
(recompute bmi from height/weight) followed by handleSubmit (score and
category), read back as a DerivedMetrics record. -/
def evaluate (p : ProfileData) : DerivedMetrics :=
  let q := submitStep (bmiEffect p)
  { bmi := q.bmi, riskScore := q.healthRiskScore, riskCategory := q.predictedRisk }

/-- First-match-wins point lookup over a list of (condition, points)
pairs: the points of the first true condition, 0 if none holds. -/
def groupPoints : List (Bool × ℕ) → ℕ
  | [] => 0
  | (c, pts) :: rest => if c then pts else groupPoints rest

/-- The additive point-rule table exactly as the specification states it
(spec §4.1): mutually exclusive range checks per group, first match wins,
independent groups summed, with Family: heart disease worth +8. -/
def specTableScore (p : ProfileData) : ℕ :=
  groupPoints [(decide (p.age > 65), 20),
               (decide (45 < p.age ∧ p.age ≤ 65), 15),
               (decide (35 < p.age ∧ p.age ≤ 45), 10)]
  + groupPoints [(decide (p.bmi ≥ 30), 25),
                 (decide (25 ≤ p.bmi ∧ p.bmi < 30), 15),
                 (decide (p.bmi < 18.5), 10)]
  + groupPoints [(decide (p.smokingStatus = .current), 20),
                 (decide (p.smokingStatus = .former), 10)]
  + groupPoints [(decide (p.alcoholConsumption = .heavy), 15),
                 (decide (p.alcoholConsumption = .moderate), 5)]
  + groupPoints [(decide (p.activityLevel = .sedentary), 15),
                 (decide (p.activityLevel = .moderate), 5)]
  + groupPoints [(p.hasHypertension, 20)]
  + groupPoints [(p.hasDiabetes, 25)]
  + groupPoints [(p.hasHighBP, 15)]
  + groupPoints [(p.familyHistory.heartDisease, 8)]
  + groupPoints [(p.familyHistory.diabetes, 10)]
  + groupPoints [(p.familyHistory.hypertension, 8)]

/-- The specification's table amended at the single entry the source
contradicts: Family: heart disease contributes +10 (App.tsx line 1081),
not +8.  All other entries are unchanged. -/
def amendedTableScore (p : ProfileData) : ℕ :=
  groupPoints [(decide (p.age > 65), 20),
               (decide (45 < p.age ∧ p.age ≤ 65), 15),
               (decide (35 < p.age ∧ p.age ≤ 45), 10)]
  + groupPoints [(decide (p.bmi ≥ 30), 25),
                 (decide (25 ≤ p.bmi ∧ p.bmi < 30), 15),
                 (decide (p.bmi < 18.5), 10)]
  + groupPoints [(decide (p.smokingStatus = .current), 20),
                 (decide (p.smokingStatus = .former), 10)]
  + groupPoints [(decide (p.alcoholConsumption = .heavy), 15),
                 (decide (p.alcoholConsumption = .moderate), 5)]
  + groupPoints [(decide (p.activityLevel = .sedentary), 15),
                 (decide (p.activityLevel = .moderate), 5)]
  + groupPoints [(p.hasHypertension, 20)]
  + groupPoints [(p.hasDiabetes, 25)]
  + groupPoints [(p.hasHighBP, 15)]
  + groupPoints [(p.familyHistory.heartDisease, 10)]
  + groupPoints [(p.familyHistory.diabetes, 10)]
  + groupPoints [(p.familyHistory.hypertension, 8)]

/-- The spec's rounding of the BMI formula: weightKg / (heightCm/100)^2
rounded to 1 decimal place. -/
def specBmi (heightCm weightKg : ℚ) : ℚ :=
  ((round (weightKg / (heightCm / 100) ^ 2 * 10) : ℤ) : ℚ) / 10

/-- Validity of a profile per the spec's declared domains (§3):
age ∈ [1,120], heightCm ∈ [100,250], weightKg ∈ [20,300]. -/
def ValidProfile (p : ProfileData) : Prop :=
  1 ≤ p.age ∧ p.age ≤ 120 ∧
  100 ≤ p.height ∧ p.height ≤ 250 ∧
  20 ≤ p.weight ∧ p.weight ≤ 300

/-- Position of a smoking status in increasing-risk order
(never < former < current). -/
def smokingRank : SmokingStatus → ℕ
  | .never => 0
  | .former => 1
  | .current => 2

/-- Position of an alcohol level in increasing-risk order
(none < moderate < heavy). -/
def alcoholRank : AlcoholConsumption → ℕ
  | .none => 0
  | .moderate => 1
  | .heavy => 2

/-- Position of an activity level in increasing-risk order
(active < moderate < sedentary). -/
def activityRank : ActivityLevel → ℕ
  | .active => 0
  | .moderate => 1
  | .sedentary => 2

/-- Risk ordering on profiles: every factor of `p` is at most as risky as
in `q`.  For bmi the comparison is restricted to the region bmi ≥ 18.5
(or equality), since below 18.5 the underweight rule makes the score
non-monotone in numeric bmi. -/
def ProfileLE (p q : ProfileData) : Prop :=
  p.age ≤ q.age ∧
  (p.bmi = q.bmi ∨ ((18.5 : ℚ) ≤ p.bmi ∧ p.bmi ≤ q.bmi)) ∧
  smokingRank p.smokingStatus ≤ smokingRank q.smokingStatus ∧
  alcoholRank p.alcoholConsumption ≤ alcoholRank q.alcoholConsumption ∧
  activityRank p.activityLevel ≤ activityRank q.activityLevel ∧
  (p.hasHypertension → q.hasHypertension) ∧
  (p.hasDiabetes → q.hasDiabetes) ∧
  (p.hasHighBP → q.hasHighBP) ∧
  (p.familyHistory.heartDisease → q.familyHistory.heartDisease) ∧
  (p.familyHistory.diabetes → q.familyHistory.diabetes) ∧
  (p.familyHistory.hypertension → q.familyHistory.hypertension)

/-- Return record of getRiskLevel (both DashboardPage.tsx lines 99-103
and App.tsx lines 1027-1031 return objects of this shape). -/
structure RiskLevelInfo where
  level : String
  color : String
  bg : String
deriving DecidableEq, Repr

/-- getRiskLevel of DashboardPage (DashboardPage.tsx lines 99-103). -/
def dashboardGetRiskLevel (score : ℚ) : RiskLevelInfo :=
  if score < 30 then { level := "Low", color := "text-green-600", bg := "bg-green-50" }
  else if score < 60 then { level := "Medium", color := "text-yellow-600", bg := "bg-yellow-50" }
  else { level := "High", color := "text-red-600", bg := "bg-red-50" }

/-- getRiskLevel of ProfilePage (App.tsx lines 1027-1031). -/
def profileGetRiskLevel (score : ℚ) : RiskLevelInfo :=
  if score < 30 then { level := "Low", color := "text-green-600", bg := "bg-green-50" }
  else if score < 60 then { level := "Medium", color := "text-yellow-600", bg := "bg-yellow-50" }
  else { level := "High", color := "text-red-600", bg := "bg-red-50" }

/-- The User record of AuthContext.tsx. -/
structure User where
  id : String
  email : String
  firstName : String
  lastName : String
  age : ℕ
  gender : String
  phoneNumber : Option String
deriving DecidableEq, Repr

/-- The authentication state touched by login (AuthContext.tsx): the
user React state, the 'vitalae_token' localStorage slot, the axios
default Authorization header, and the loading flag. -/
structure AuthState where
  user : Option User
  storedToken : Option String
  authHeader : Option String
  loading : Bool
deriving DecidableEq, Repr

/-- Outcome of the POST to /auth/login as observed by the login function:
a response with success=true carrying user and token, a response with
success=false (optional message), or the request throwing. -/
inductive LoginResponse
  | succeeded (user : User) (token : String)
  | failed (message : Option String)
  | threw (message : Option String)
deriving DecidableEq, Repr

/-- Whether the login attempt did not succeed (success=false response,
or the request threw). -/
def LoginResponse.isFailure : LoginResponse → Bool
  | .succeeded _ _ => false
  | .failed _ => true
  | .threw _ => true

/-- The login function of AuthContext.tsx (lines 80-107): setLoading(true);
on success=true set user, write the token to storage, install the
Authorization header and return true; otherwise return false; finally
setLoading(false).  Returns the boolean result and the new state. -/
def login (s : AuthState) (r : LoginResponse) : Bool × AuthState :=
  let s1 : AuthState := { s with loading := true }
  match r with
  | .succeeded u t =>
      (true, { s1 with
                 user := some u
                 storedToken := some t
                 authHeader := some ("Bearer " ++ t)
                 loading := false })
  | .failed _ => (false, { s1 with loading := false })
  | .threw _ => (false, { s1 with loading := false })

/-- A profile used in several statements below: age 70, all lifestyle
factors at their riskiest, all condition and family-history flags set,
with a parametric bmi. -/
def severeProfile (b : ℚ) : ProfileData :=
  { initialProfileData with
      age := 70
      bmi := b
      smokingStatus := .current
      alcoholConsumption := .heavy
      activityLevel := .sedentary
      hasHypertension := true
      hasDiabetes := true
      hasHighBP := true
      familyHistory := { heartDisease := true, diabetes := true, hypertension := true } }

/-! ## Helper lemmas -/

lemma agePoints_eq_group (a : ℕ) :
    agePoints a =
      groupPoints [(decide (a > 65), 20),
                   (decide (45 < a ∧ a ≤ 65), 15),
                   (decide (35 < a ∧ a ≤ 45), 10)] := by
  simp only [agePoints, groupPoints, decide_eq_true_eq, gt_iff_lt]
  split_ifs <;> omega

lemma bmiPoints_eq_group (b : ℚ) :
    bmiPoints b =
      groupPoints [(decide (b ≥ 30), 25),
                   (decide (25 ≤ b ∧ b < 30), 15),
                   (decide (b < 18.5), 10)] := by
  simp only [bmiPoints, groupPoints, decide_eq_true_eq, ge_iff_le]
  rcases le_or_lt 30 b with h30 | h30
  · simp [h30]
  · have hiff : (25 ≤ b ∧ b < 30) ↔ 25 ≤ b := and_iff_left h30
    simp [not_le.mpr h30, hiff]

lemma smokingPoints_eq_group (s : SmokingStatus) :
    smokingPoints s =
      groupPoints [(decide (s = .current), 20), (decide (s = .former), 10)] := by
  cases s <;> rfl

lemma alcoholPoints_eq_group (a : AlcoholConsumption) :
    alcoholPoints a =
      groupPoints [(decide (a = .heavy), 15), (decide (a = .moderate), 5)] := by
  cases a <;> rfl

lemma activityPoints_eq_group (a : ActivityLevel) :
    activityPoints a =
      groupPoints [(decide (a = .sedentary), 15), (decide (a = .moderate), 5)] := by
  cases a <;> rfl

lemma flag_eq_group (b : Bool) (k : ℕ) :
    (if b then k else 0) = groupPoints [(b, k)] := by
  cases b <;> rfl

lemma rawRiskScore_eq_amendedTable (p : ProfileData) :
    rawRiskScore p = amendedTableScore p := by
  unfold rawRiskScore amendedTableScore
  rw [agePoints_eq_group, bmiPoints_eq_group, smokingPoints_eq_group,
      alcoholPoints_eq_group, activityPoints_eq_group,
      flag_eq_group p.hasHypertension, flag_eq_group p.hasDiabetes,
      flag_eq_group p.hasHighBP, flag_eq_group p.familyHistory.heartDisease,
      flag_eq_group p.familyHistory.diabetes,
      flag_eq_group p.familyHistory.hypertension]

lemma predictedRiskOf_min100 (r : ℕ) :
    predictedRiskOf (min r 100) = predictedRiskOf r := by
  unfold predictedRiskOf
  split_ifs <;> first | rfl | omega

lemma agePoints_mono {a b : ℕ} (h : a ≤ b) : agePoints a ≤ agePoints b := by
  unfold agePoints
  split_ifs <;> omega

lemma bmiPoints_mono {a b : ℚ} (h : (18.5 : ℚ) ≤ a) (hab : a ≤ b) :
    bmiPoints a ≤ bmiPoints b := by
  unfold bmiPoints
  split_ifs <;> first | omega | linarith

lemma smokingPoints_mono {s t : SmokingStatus} (h : smokingRank s ≤ smokingRank t) :
    smokingPoints s ≤ smokingPoints t := by
  revert h
  cases s <;> cases t <;> decide

lemma alcoholPoints_mono {s t : AlcoholConsumption} (h : alcoholRank s ≤ alcoholRank t) :
    alcoholPoints s ≤ alcoholPoints t := by
  revert h
  cases s <;> cases t <;> decide

lemma activityPoints_mono {s t : ActivityLevel} (h : activityRank s ≤ activityRank t) :
    activityPoints s ≤ activityPoints t := by
  revert h
  cases s <;> cases t <;> decide

lemma flagPoints_mono {b c : Bool} (k : ℕ) (h : b → c) :
    (if b then k else 0) ≤ (if c then k else 0) := by
  cases b <;> cases c <;> simp_all

lemma rawRiskScore_mono {p q : ProfileData} (h : ProfileLE p q) :
    rawRiskScore p ≤ rawRiskScore q := by
  obtain ⟨ha, hb, hs, hal, hac, h1, h2, h3, h4, h5, h6⟩ := h
  have hbmi : bmiPoints p.bmi ≤ bmiPoints q.bmi := by
    rcases hb with hb | ⟨hb1, hb2⟩
    · rw [hb]
    · exact bmiPoints_mono hb1 hb2
  unfold rawRiskScore
  exact add_le_add (add_le_add (add_le_add (add_le_add (add_le_add (add_le_add
    (add_le_add (add_le_add (add_le_add (add_le_add
      (agePoints_mono ha) hbmi) (smokingPoints_mono hs)) (alcoholPoints_mono hal))
      (activityPoints_mono hac)) (flagPoints_mono 20 h1)) (flagPoints_mono 25 h2))
      (flagPoints_mono 15 h3)) (flagPoints_mono 10 h4)) (flagPoints_mono 10 h5))
      (flagPoints_mono 8 h6)

/-! ## Claim theorems -/

/-- Claim C1, as stated, is false: on the profile whose only risk factor
is a family history of heart disease, submission stores a risk score of
10, while the claim's point table (Family: heart disease +8) yields 8. -/
theorem c1_score_not_spec_table :
    (submitStep { initialProfileData with
        activityLevel := .active,
        familyHistory := { heartDisease := true, diabetes := false,
                           hypertension := false } }).healthRiskScore = 10 ∧
    min (specTableScore { initialProfileData with
        activityLevel := .active,
        familyHistory := { heartDisease := true, diabetes := false,
                           hypertension := false } }) 100 = 8 ∧
    (submitStep { initialProfileData with
        activityLevel := .active,
        familyHistory := { heartDisease := true, diabetes := false,
                           hypertension := false } }).healthRiskScore ≠
      min (specTableScore { initialProfileData with
        activityLevel := .active,
        familyHistory := { heartDisease := true, diabetes := false,
                           hypertension := false } }) 100 := by
  refine ⟨?_, ?_, ?_⟩ <;>
    norm_num [submitStep, rawRiskScore, specTableScore, groupPoints, agePoints,
              bmiPoints, smokingPoints, alcoholPoints, activityPoints,
              initialProfileData] <;>
    decide

/-- Claim C1 (amended): for every ProfileData, the risk score stored on
submission equals the additive first-match-wins point table clamped with
min(sum, 100), with the family heart-disease entry worth +10 (as in the
source) rather than the +8 the claim states; all other table entries are
as claimed. -/
theorem c1_score_eq_amended_table (p : ProfileData) :
    (submitStep p).healthRiskScore = min (amendedTableScore p) 100 := by
  show min (rawRiskScore p) 100 = min (amendedTableScore p) 100
  rw [rawRiskScore_eq_amendedTable]

/-- Claim C2, as stated, is false: from the initial ProfilePage state,
one field-change step (setting hasDiabetes) leaves the displayed
healthRiskScore at its previous value 25, while the pure clamped score of
the current fields is 30 — the risk score is not recomputed on field
changes. -/
theorem c2_derived_not_synced :
    (run [Step.field (.setDiabetes true)]).healthRiskScore = 25 ∧
    min (rawRiskScore (run [Step.field (.setDiabetes true)])) 100 = 30 ∧
    (run [Step.field (.setDiabetes true)]).healthRiskScore ≠
      min (rawRiskScore (run [Step.field (.setDiabetes true)])) 100 := by
  refine ⟨?_, ?_, ?_⟩ <;>
    norm_num [run, applyStep, applyField, rawRiskScore, agePoints, bmiPoints,
              smokingPoints, alcoholPoints, activityPoints, initialProfileData]

/-- Claim C2 (amended): bmi is recomputed only when the height/weight
effect runs — after an effect step it equals the pure BMI of the current
height and weight — and the risk score and category are recomputed only
on form submission — after a submit step they equal the pure clamped
score and category of the then-current fields.  After a risk-factor field
change with no submission the displayed riskScore can be stale. -/
theorem c2_derived_updates (p : ProfileData) :
    (applyStep p .effectBmi).bmi = computeBmi p.height p.weight ∧
    (applyStep p .submit).healthRiskScore = min (rawRiskScore p) 100 ∧
    (applyStep p .submit).predictedRisk = predictedRiskOf (rawRiskScore p) :=
  ⟨rfl, rfl, rfl⟩

/-- Claim C3: for every valid HealthProfile input (all numeric fields in
their declared domains), the stored risk score is a natural number in
[0, 100]. -/
theorem c3_riskScore_in_range (p : ProfileData) (h : ValidProfile p) :
    0 ≤ (submitStep p).healthRiskScore ∧ (submitStep p).healthRiskScore ≤ 100 :=
  ⟨Nat.zero_le _, min_le_right _ _⟩

/-- Witness for C3 at the initial profile data. -/
theorem c3_riskScore_in_range_witness :
    ValidProfile initialProfileData ∧
    (0 ≤ (submitStep initialProfileData).healthRiskScore ∧
     (submitStep initialProfileData).healthRiskScore ≤ 100) :=
  ⟨by norm_num [ValidProfile, initialProfileData],
   c3_riskScore_in_range initialProfileData
     (by norm_num [ValidProfile, initialProfileData])⟩

/-- Claim C4: the stored risk category is a pure, total function of the
stored risk score alone, via the fixed thresholds (score < 30 low,
30 ≤ score < 60 medium, score ≥ 60 high) encoded in predictedRiskOf; no
other profile field enters. -/
theorem c4_category_pure_in_score (p : ProfileData) :
    (submitStep p).predictedRisk = predictedRiskOf (submitStep p).healthRiskScore := by
  show predictedRiskOf (rawRiskScore p) = predictedRiskOf (min (rawRiskScore p) 100)
  rw [predictedRiskOf_min100]

/-- Claim C5, as stated, is false for the bmi factor: raising bmi from 17
to 20 with every other field fixed strictly decreases the stored risk
score (10 to 0), because the underweight rule awards +10 below 18.5. -/
theorem c5_not_monotone_in_bmi :
    (17 : ℚ) < 20 ∧
    (submitStep { initialProfileData with
        bmi := 20, activityLevel := .active }).healthRiskScore <
      (submitStep { initialProfileData with
        bmi := 17, activityLevel := .active }).healthRiskScore := by
  constructor <;>
    norm_num [submitStep, rawRiskScore, agePoints, bmiPoints, smokingPoints,
              alcoholPoints, activityPoints, initialProfileData]

/-- Claim C5 (amended): the risk score is monotone non-decreasing when
each factor moves in its increasing-risk order — age numerically, smoking
never→former→current, alcohol none→moderate→heavy, activity
active→moderate→sedentary, each boolean flag false→true — and in bmi
numerically only on the region bmi ≥ 18.5; below 18.5 the underweight
rule breaks numeric monotonicity in bmi. -/
theorem c5_score_monotone (p q : ProfileData) (h : ProfileLE p q) :
    (submitStep p).healthRiskScore ≤ (submitStep q).healthRiskScore :=
  min_le_min (rawRiskScore_mono h) le_rfl

/-- Witness for C5: the initial profile against the same profile with
current smoking. -/
theorem c5_score_monotone_witness :
    ProfileLE initialProfileData { initialProfileData with smokingStatus := .current } ∧
    (submitStep initialProfileData).healthRiskScore ≤
      (submitStep { initialProfileData with
          smokingStatus := .current }).healthRiskScore :=
  ⟨by simp [ProfileLE, initialProfileData, smokingRank, alcoholRank, activityRank],
   c5_score_monotone initialProfileData
     { initialProfileData with smokingStatus := .current }
     (by simp [ProfileLE, initialProfileData, smokingRank, alcoholRank,
               activityRank])⟩

/-- Claim C6: for every height and weight, the computed bmi equals
weightKg / (heightCm/100)^2 rounded to one decimal place, and in
particular bmi(170, 70) = 24.2. -/
theorem c6_bmi_formula :
    (∀ h w : ℚ, computeBmi h w = specBmi h w) ∧ computeBmi 170 70 = 24.2 := by
  constructor
  · intro h w
    simp only [computeBmi, specBmi, pow_two]
  · norm_num [computeBmi, round_eq]

/-- Claim C7: for any bmi ≥ 30, the profile with age 70, current smoker,
heavy alcohol, sedentary, all three condition flags and all three
family-history flags accumulates a raw sum above 100, and submission
stores exactly 100 with category high. -/
theorem c7_severe_clamps_to_100 (b : ℚ) (hb : (30 : ℚ) ≤ b) :
    100 < rawRiskScore (severeProfile b) ∧
    (submitStep (severeProfile b)).healthRiskScore = 100 ∧
    (submitStep (severeProfile b)).predictedRisk = .high := by
  have hraw : rawRiskScore (severeProfile b) = 183 := by
    simp [rawRiskScore, severeProfile, initialProfileData, agePoints, bmiPoints,
          smokingPoints, alcoholPoints, activityPoints, hb]
  refine ⟨by omega, ?_, ?_⟩
  · show min (rawRiskScore (severeProfile b)) 100 = 100
    rw [hraw]
    omega
  · show predictedRiskOf (rawRiskScore (severeProfile b)) = .high
    rw [hraw]
    rfl

/-- Witness for C7 at bmi = 32. -/
theorem c7_severe_clamps_to_100_witness :
    (30 : ℚ) ≤ 32 ∧
    (100 < rawRiskScore (severeProfile 32) ∧
     (submitStep (severeProfile 32)).healthRiskScore = 100 ∧
     (submitStep (severeProfile 32)).predictedRisk = .high) :=
  ⟨by norm_num, c7_severe_clamps_to_100 32 (by norm_num)⟩

/-- Claim C8: the evaluation pipeline is deterministic — any two runs on
equal ProfileData inputs produce equal DerivedMetrics (equal bmi,
riskScore and riskCategory). -/
theorem c8_evaluate_deterministic (p q : ProfileData) (h : p = q) :
    evaluate p = evaluate q := by
  rw [h]

/-- Witness for C8 at the initial profile data. -/
theorem c8_evaluate_deterministic_witness :
    initialProfileData = initialProfileData ∧
    evaluate initialProfileData = evaluate initialProfileData :=
  ⟨rfl, c8_evaluate_deterministic initialProfileData initialProfileData rfl⟩

/-- Claim C9: the getRiskLevel helpers duplicated in DashboardPage and
ProfilePage are extensionally equal, and for every score the level is
Low below 30, Medium on [30, 60), High otherwise. -/
theorem c9_getRiskLevel_agree (s : ℚ) :
    dashboardGetRiskLevel s = profileGetRiskLevel s ∧
    (dashboardGetRiskLevel s).level =
      (if s < 30 then "Low" else if s < 60 then "Medium" else "High") := by
  refine ⟨rfl, ?_⟩
  unfold dashboardGetRiskLevel
  split_ifs <;> rfl

/-- Claim C10: when the login request throws or the response has
success=false, login returns false and leaves the authentication state
unchanged — the user is as before, no token is stored, and no
Authorization header is installed. -/
theorem c10_login_failure_atomic (s : AuthState) (r : LoginResponse)
    (h : r.isFailure = true) :
    (login s r).1 = false ∧
    (login s r).2.user = s.user ∧
    (login s r).2.storedToken = s.storedToken ∧
    (login s r).2.authHeader = s.authHeader := by
  cases r <;> simp_all [login, LoginResponse.isFailure]

/-- Witness for C10: a logged-out state and a success=false response. -/
theorem c10_login_failure_atomic_witness :
    (LoginResponse.failed Option.none).isFailure = true ∧
    ((login ⟨Option.none, Option.none, Option.none, false⟩
        (LoginResponse.failed Option.none)).1 = false ∧
     (login ⟨Option.none, Option.none, Option.none, false⟩
        (LoginResponse.failed Option.none)).2.user = Option.none ∧
     (login ⟨Option.none, Option.none, Option.none, false⟩
        (LoginResponse.failed Option.none)).2.storedToken = Option.none ∧
     (login ⟨Option.none, Option.none, Option.none, false⟩
        (LoginResponse.failed Option.none)).2.authHeader = Option.none) :=
  ⟨rfl, c10_login_failure_atomic ⟨Option.none, Option.none, Option.none, false⟩
     (LoginResponse.failed Option.none) rfl⟩

end Vitalae
